import Mathlib

/-!
Verification of the KdG Kiosk installer (install-kdg-kiosk.py).

The Python script resolves the latest GitHub release of a fixed repository,
selects a `.deb` asset, downloads it into a temporary directory with progress
reporting, and installs it via `apt` with a `dpkg` fallback.  The definitions
below are a shallow embedding of that script: pure string manipulation is
translated directly, network and subprocess effects are passed in explicitly
as data (HTTP responses, process exit codes and captured output), and each
top-level Python function becomes a Lean function over that data.
-/

namespace KdgKiosk

/-! ## Configuration constants (script lines 29-31) -/

def GITHUB_REPO : String := "Brasco123/KdG-Kiosk"

def PACKAGE_NAME : String := "kdg-kiosk"

/-- `DEB_PATTERN.format(version=version)`: the expected asset filename. -/
def DEB_PATTERN (version : String) : String :=
  "kdg-kiosk_" ++ version ++ "_amd64.deb"

/-! ## String helpers used by the script -/

/-- Python `str.endswith(t)` on whole strings: `t` is a suffix of `s`. -/
def endswith (s t : String) : Bool :=
  t.data.isSuffixOf s.data

/-- Python `str.lstrip("v")`: remove ALL leading `'v'` characters. -/
def lstrip_v (s : String) : String :=
  String.mk (s.data.dropWhile (fun c => c == 'v'))

/-! ## Release metadata (get_latest_release_info, script lines 100-120) -/

/-- One release asset: its `name` and `browser_download_url` fields. -/
structure Asset where
  name : String
  browser_download_url : String
deriving Repr, DecidableEq

/-- The JSON fields of a GitHub latest-release response that the script reads. -/
structure ReleaseData where
  tag_name : String
  assets : List Asset
  name : String
  body : String
deriving Repr, DecidableEq

/-- Outcome of the single HTTPS request the script performs: a parsed JSON
body, an HTTP error status (e.g. 404), or any other failure (connection,
timeout, malformed body). -/
inductive HttpResult where
  | ok : ReleaseData → HttpResult
  | httpError : Nat → HttpResult
  | otherError : String → HttpResult
deriving Repr, DecidableEq

/-- The dictionary returned by `get_latest_release_info`. -/
structure ReleaseInfo where
  version : String
  assets : List Asset
  name : String
  body : String
deriving Repr, DecidableEq

/-- The fixed endpoint `https://api.github.com/repos/{repo}/releases/latest`. -/
def latest_release_url (repo : String) : String :=
  "https://api.github.com/repos/" ++ repo ++ "/releases/latest"

/-- `get_latest_release_info(repo)`: issue one request to the latest-release
endpoint and turn the response into a `ReleaseInfo`, stripping leading `v`
characters from the tag.  A 404 becomes the distinct "No releases found"
error; other HTTP errors and all other failures get their own messages
(script lines 100-120). -/
def get_latest_release_info (http : String → HttpResult) (repo : String) :
    Except String ReleaseInfo :=
  match http (latest_release_url repo) with
  | HttpResult.ok data =>
      Except.ok
        { version := lstrip_v data.tag_name
          assets := data.assets
          name := data.name
          body := data.body }
  | HttpResult.httpError code =>
      if code = 404 then
        Except.error "No releases found. Please create a release on GitHub first."
      else
        Except.error ("Failed to fetch release info: HTTP Error " ++ toString code)
  | HttpResult.otherError e =>
      Except.error ("Failed to connect to GitHub: " ++ e)

/-! ## Asset selection (find_deb_asset, script lines 123-131) -/

/-- `find_deb_asset(assets, version)`: scan the assets in metadata order and
return the download URL and name of the first one whose name equals the
expected pattern or ends with `".deb"` (a single loop with a disjunctive
test, script lines 127-129). -/
def find_deb_asset (assets : List Asset) (version : String) :
    Except String (String × String) :=
  let deb_name := DEB_PATTERN version
  match assets.find? (fun a => a.name == deb_name || endswith a.name ".deb") with
  | some a => Except.ok (a.browser_download_url, a.name)
  | none =>
      Except.error ("Could not find .deb file in release assets. Expected: " ++ deb_name)

/-! ## Helper lemmas about the string functions -/

/-- The expected filename pattern itself ends with `".deb"`. -/
theorem endswith_DEB_PATTERN (version : String) :
    endswith (DEB_PATTERN version) ".deb" = true := by
  have hsplit : "_amd64.deb".data = "_amd64".data ++ ".deb".data := by decide
  unfold endswith DEB_PATTERN
  rw [List.isSuffixOf_iff_suffix, String.data_append, String.data_append, hsplit,
    ← List.append_assoc]
  exact List.suffix_append _ _

/-- The two-disjunct test of `find_deb_asset` collapses: an exact pattern
match already ends with `".deb"`. -/
theorem find_deb_asset_test_eq (version : String) :
    (fun a : Asset => a.name == DEB_PATTERN version || endswith a.name ".deb")
      = (fun a : Asset => endswith a.name ".deb") := by
  funext a
  cases h : a.name == DEB_PATTERN version with
  | false => simp
  | true =>
      have hname : a.name = DEB_PATTERN version := eq_of_beq h
      simp [hname, endswith_DEB_PATTERN]

/-- `lstrip_v` leaves a string alone when it does not start with `'v'`. -/
theorem lstrip_v_no_leading_v (s : String) (h : s.data.head? ≠ some 'v') :
    lstrip_v s = s := by
  unfold lstrip_v
  have hdrop : s.data.dropWhile (fun c => c == 'v') = s.data := by
    cases hs : s.data with
    | nil => simp
    | cons c rest =>
        have hcv : (c == 'v') = false := by
          cases hcv : c == 'v' with
          | false => rfl
          | true => exact absurd (by rw [hs, eq_of_beq hcv]; rfl) h
        simp [List.dropWhile_cons, hcv]
  rw [hdrop]

/-- Characterization of `lstrip_v`: the input is a block of `'v'`s followed
by the output, and the output does not start with `'v'`. -/
theorem lstrip_v_spec (s : String) :
    (∃ n, s.data = List.replicate n 'v' ++ (lstrip_v s).data) ∧
    (∀ c, (lstrip_v s).data.head? = some c → c ≠ 'v') := by
  constructor
  · refine ⟨(s.data.takeWhile (fun c => c == 'v')).length, ?_⟩
    have htake : s.data.takeWhile (fun c => c == 'v')
        = List.replicate (s.data.takeWhile (fun c => c == 'v')).length 'v' := by
      apply List.eq_replicate_length.mpr
      intro b hb
      exact eq_of_beq (List.mem_takeWhile_imp (p := fun c => c == 'v') hb)
    conv_lhs => rw [← List.takeWhile_append_dropWhile (p := fun c => c == 'v') (l := s.data)]
    rw [← htake]
    rfl
  · intro c hc
    have h := List.head?_dropWhile_not (fun c => c == 'v') s.data
    rw [show (lstrip_v s).data = s.data.dropWhile (fun c => c == 'v') from rfl] at hc
    rw [hc] at h
    simpa using h

/-! ## Download (download_file, script lines 134-147) -/

/-- The inner `reporthook(block_num, block_size, total_size)` of
`download_file`: when a progress callback was supplied and the reported
total size is positive, it computes `downloaded = block_num * block_size`
and `percent = min(100, downloaded * 100 // total_size)` and invokes the
callback with `(percent, downloaded, total_size)`; otherwise it does
nothing (script lines 137-141). -/
def reporthook (progress_callback : Bool) (block_num block_size : Nat)
    (total_size : Int) : Option (Nat × Nat × Int) :=
  if progress_callback = true ∧ 0 < total_size then
    some (min 100 (block_num * block_size * 100 / total_size.toNat),
      block_num * block_size, total_size)
  else none

/-- Models the driver loop of `urllib.request.urlretrieve` (the Python
standard-library function `download_file` calls): given the reported content
length `total_size` (`-1` when unknown) and the byte sizes `chunks` of the
successively received blocks, the hook is called once with block count 0
before any data and once after each received block with the running block
count.  The result collects, in order, the `(percent, downloaded, total)`
triples passed to the script's progress callback. -/
def download_events (progress_callback : Bool) (chunks : List Nat)
    (block_size : Nat) (total_size : Int) : List (Nat × Nat × Int) :=
  ((List.range (chunks.length + 1)).map
    (fun k => reporthook progress_callback k block_size total_size)).filterMap id

/-- `download_file` itself: returns `True` when the transfer succeeds and
raises `Download failed: ...` otherwise (script lines 143-147). -/
def download_file (transfer_ok : Bool) (err : String) : Except String Bool :=
  if transfer_ok then Except.ok true
  else Except.error ("Download failed: " ++ err)

/-- With a callback and a positive known total, every hook call fires the
callback, so the event list is the full list of triples. -/
theorem download_events_eq (chunks : List Nat) (block_size total : Nat)
    (h0 : 0 < total) :
    download_events true chunks block_size (total : Int) =
      (List.range (chunks.length + 1)).map
        (fun k => (min 100 (k * block_size * 100 / total),
          k * block_size, (total : Int))) := by
  have hfun : (fun k => reporthook true k block_size (total : Int))
      = (fun k => some (min 100 (k * block_size * 100 / total),
          k * block_size, (total : Int))) := by
    funext k
    unfold reporthook
    rw [if_pos ⟨rfl, by exact_mod_cast h0⟩, Int.toNat_ofNat]
  unfold download_events
  rw [hfun, List.filterMap_map]
  exact congrFun (List.filterMap_eq_map _) _

/-- Without a positive known total, no hook call fires the callback. -/
theorem download_events_no_total (progress_callback : Bool) (chunks : List Nat)
    (block_size : Nat) (total_size : Int) (h : total_size ≤ 0) :
    download_events progress_callback chunks block_size total_size = [] := by
  have hfun : ∀ k, reporthook progress_callback k block_size total_size = none := by
    intro k
    unfold reporthook
    exact if_neg (fun hc => absurd hc.2 (not_lt.mpr h))
  unfold download_events
  rw [List.filterMap_map]
  apply List.filterMap_eq_nil_iff.mpr
  intro a _
  exact hfun a

/-! ## Install (install_deb, script lines 150-204) -/

/-- The `apt install -y` subprocess of the primary tier: its exit code and
the combined stdout/stderr lines streamed through its pipe. -/
structure PrimaryProc where
  returncode : Int
  lines : List String
deriving Repr, DecidableEq

/-- A `subprocess.run(..., capture_output=True)` invocation of the fallback
tier: exit code plus separately captured stdout and stderr. -/
structure CapturedProc where
  returncode : Int
  stdout : String
  stderr : String
deriving Repr, DecidableEq

/-- The three subprocess invocations `install_deb` can make, in order:
`sudo apt install -y <deb>`, `sudo dpkg -i <deb>`,
`sudo apt install -f -y`. -/
structure InstallEnv where
  apt_install : PrimaryProc
  dpkg_i : CapturedProc
  apt_fix_broken : CapturedProc
deriving Repr, DecidableEq

/-- What `install_deb` did: which fallback subprocesses were actually
spawned, and the returned `(success, output)` pair or the raised error. -/
structure InstallTrace where
  dpkg_attempted : Bool
  apt_fix_attempted : Bool
  result : Except String (Bool × String)
deriving Repr

/-- `install_deb(deb_path)`: primary tier runs `apt install -y` streaming
its combined output; a non-zero exit raises, which the enclosing handler
turns into the fallback tier: `dpkg -i` then `apt install -f -y`, each with
`check=True`; a `CalledProcessError` from either step raises
`Installation failed: <stderr>`, and fallback success returns the fixed
string `"Installation completed successfully"` (script lines 150-204). -/
def install_deb (env : InstallEnv) : InstallTrace :=
  if env.apt_install.returncode = 0 then
    { dpkg_attempted := false
      apt_fix_attempted := false
      result := Except.ok (true, String.join env.apt_install.lines) }
  else if env.dpkg_i.returncode ≠ 0 then
    { dpkg_attempted := true
      apt_fix_attempted := false
      result := Except.error ("Installation failed: " ++ env.dpkg_i.stderr) }
  else if env.apt_fix_broken.returncode ≠ 0 then
    { dpkg_attempted := true
      apt_fix_attempted := true
      result := Except.error ("Installation failed: " ++ env.apt_fix_broken.stderr) }
  else
    { dpkg_attempted := true
      apt_fix_attempted := true
      result := Except.ok (true, "Installation completed successfully") }

/-! ## CLI pipeline (CLIInstaller.run, script lines 246-340) -/

/-- The stage at which a run stopped (`finished` = installation completed). -/
inductive Stage where
  | compat
  | privilege
  | resolve
  | selectAsset
  | download
  | install
  | finished
deriving Repr, DecidableEq

/-- Observable outcome of one `CLIInstaller.run` invocation: the returned
boolean, whether `tempfile.mkdtemp()` ran, how many times
`shutil.rmtree(temp_dir, ...)` was invoked, the stage reached, and the
error message printed on failure (if any). -/
structure RunTrace where
  success : Bool
  workdir_created : Bool
  rmtree_calls : Nat
  halted_at : Stage
  failure_message : Option String
deriving Repr, DecidableEq

/-- The local environment a run interacts with: compatibility-check output,
privilege state, whether the download transfer succeeds (with its error
text otherwise), and the install subprocess results. -/
structure Env where
  compat_errors : List String
  is_root : Bool
  download_ok : Bool
  download_err : String
  install_env : InstallEnv

/-- `version = self.version or release_info["version"]` (script line 270):
Python `or` treats both `None` and `""` as falsy, so an absent or empty
requested version falls back to the resolved latest version. -/
def effective_version (version? : Option String) (resolved : String) : String :=
  match version? with
  | some v => if v = "" then resolved else v
  | none => resolved

/-- `CLIInstaller.run(self)`: compatibility check, root check, release
resolution (one request to the fixed latest-release endpoint), asset
selection with `self.version or release_info["version"]`,
`tempfile.mkdtemp()`, download, install inside try/except/finally — the
except handler for the install stage removes the temp directory and the
finally block removes it again — then the setup-wizard prompt
(script lines 246-340). -/
def CLIInstaller.run (version? : Option String) (http : String → HttpResult)
    (env : Env) : RunTrace :=
  if env.compat_errors ≠ [] then
    { success := false, workdir_created := false, rmtree_calls := 0,
      halted_at := Stage.compat, failure_message := none }
  else if env.is_root = false then
    { success := false, workdir_created := false, rmtree_calls := 0,
      halted_at := Stage.privilege, failure_message := none }
  else
    match get_latest_release_info http GITHUB_REPO with
    | Except.error e =>
        { success := false, workdir_created := false, rmtree_calls := 0,
          halted_at := Stage.resolve, failure_message := some e }
    | Except.ok info =>
        match find_deb_asset info.assets (effective_version version? info.version) with
        | Except.error e =>
            { success := false, workdir_created := false, rmtree_calls := 0,
              halted_at := Stage.selectAsset, failure_message := some e }
        | Except.ok _ =>
            if env.download_ok = false then
              { success := false, workdir_created := true, rmtree_calls := 1,
                halted_at := Stage.download,
                failure_message := some ("Download failed: " ++ env.download_err) }
            else
              match (install_deb env.install_env).result with
              | Except.error e =>
                  { success := false, workdir_created := true, rmtree_calls := 2,
                    halted_at := Stage.install, failure_message := some e }
              | Except.ok (succ, _) =>
                  if succ then
                    { success := true, workdir_created := true, rmtree_calls := 1,
                      halted_at := Stage.finished, failure_message := none }
                  else
                    { success := false, workdir_created := true, rmtree_calls := 1,
                      halted_at := Stage.install, failure_message := none }

/-! ## Claim C1: asset selection order -/

/-- C1 (counterexample): with assets `["extra.deb", "kdg-kiosk_2.3.1_amd64.deb"]`
and requested version `"2.3.1"`, the exact-name match exists in the list but
the code returns the earlier generic `.deb` asset, refuting the claimed
two-rules-in-order evaluation. -/
theorem find_deb_asset_earlier_deb_beats_exact :
    find_deb_asset
        [{ name := "extra.deb", browser_download_url := "u1" },
         { name := "kdg-kiosk_2.3.1_amd64.deb", browser_download_url := "u2" }]
        "2.3.1"
      = Except.ok ("u1", "extra.deb") ∧
    ("u1", "extra.deb") ≠ ("u2", "kdg-kiosk_2.3.1_amd64.deb") := by
  constructor
  · rfl
  · decide

/-- C1 (amended): asset selection returns the first asset, in metadata order,
whose name is an exact pattern match or ends with `".deb"` — equivalently,
since the pattern itself ends with `".deb"`, simply the first asset whose
name ends with `".deb"`; in the spec's example `["other.txt",
"kdg-kiosk_2.3.1_amd64.deb"]` with version `"2.3.1"` the exact-name asset is
still returned because `"other.txt"` does not end with `".deb"`. -/
theorem find_deb_asset_first_deb (assets : List Asset) (version : String) :
    (find_deb_asset assets version =
      match assets.find? (fun a => endswith a.name ".deb") with
      | some a => Except.ok (a.browser_download_url, a.name)
      | none =>
          Except.error
            ("Could not find .deb file in release assets. Expected: "
              ++ DEB_PATTERN version)) ∧
    find_deb_asset
        [{ name := "other.txt", browser_download_url := "u1" },
         { name := "kdg-kiosk_2.3.1_amd64.deb", browser_download_url := "u2" }]
        "2.3.1"
      = Except.ok ("u2", "kdg-kiosk_2.3.1_amd64.deb") := by
  constructor
  · unfold find_deb_asset
    simp only [find_deb_asset_test_eq]
  · rfl

/-! ## Claim C2: version normalization -/

/-- C2 (counterexample): for the tag `"vv2.3.1"` (which begins with `'v'`),
removing exactly one leading `'v'` would give `"v2.3.1"`, but the code's
`lstrip("v")` removes every leading `'v'` and resolves the version to
`"2.3.1"`. -/
theorem lstrip_v_strips_all_leading_v :
    get_latest_release_info
        (fun _ => HttpResult.ok
          { tag_name := "vv2.3.1", assets := [], name := "r", body := "" })
        GITHUB_REPO
      = Except.ok { version := "2.3.1", assets := [], name := "r", body := "" } ∧
    ("2.3.1" : String) ≠ "v2.3.1" := by
  constructor
  · rfl
  · decide

/-- C2 (amended): the resolved version is the tag with ALL leading `'v'`
characters removed — the result never starts with `'v'`, the removed part is
a (possibly empty) block of `'v'`s, and a tag with no leading `'v'` is
returned unchanged; `"v2.3.1"` still resolves to `"2.3.1"`. -/
theorem resolved_version_strips_leading_vs (http : String → HttpResult)
    (repo : String) (d : ReleaseData) (r : ReleaseInfo)
    (hresp : http (latest_release_url repo) = HttpResult.ok d)
    (hok : get_latest_release_info http repo = Except.ok r) :
    (∃ n, d.tag_name.data = List.replicate n 'v' ++ r.version.data) ∧
    (∀ c, r.version.data.head? = some c → c ≠ 'v') ∧
    (d.tag_name.data.head? ≠ some 'v' → r.version = d.tag_name) := by
  have hv : r.version = lstrip_v d.tag_name := by
    unfold get_latest_release_info at hok
    rw [hresp] at hok
    cases hok
    rfl
  refine ⟨?_, ?_, ?_⟩
  · rw [hv]; exact (lstrip_v_spec d.tag_name).1
  · rw [hv]; exact (lstrip_v_spec d.tag_name).2
  · intro hhead
    rw [hv]
    exact lstrip_v_no_leading_v d.tag_name hhead

/-! ## Claim C5: per-chunk progress values -/

/-- C5 (counterexample): for a download of 10000 total bytes delivered as a
full 8192-byte block followed by a final 1808-byte block, the callback
invocation after the final chunk passes 16384 as the downloaded byte count,
although exactly 10000 bytes (the sum of the chunks) have been downloaded —
refuting the claim that the callback receives the number of bytes downloaded
so far. -/
theorem download_reported_bytes_overshoot :
    download_events true [8192, 1808] 8192 (10000 : Int) =
      [(0, 0, (10000 : Int)), (81, 8192, (10000 : Int)),
       (100, 16384, (10000 : Int))] ∧
    List.sum [8192, 1808] = 10000 ∧ (16384 : Nat) ≠ 10000 := by
  refine ⟨by decide, by decide, by decide⟩

/-- C5 (amended): after each chunk (and once more before the first), the
callback receives downloaded = blockCount * blockSize — an approximation
that can exceed the true byte count on the final partial block — together
with percent = min 100 (downloaded * 100 / total); for a transfer whose
blocks are all full-sized except the last, this percent nonetheless equals
floor(trueBytes * 100 / total) clamped to 100 at every invocation. -/
theorem download_percent_matches_true_bytes (m r block_size : Nat)
    (hr0 : 0 < r) (hrbs : r ≤ block_size) :
    download_events true (List.replicate m block_size ++ [r]) block_size
        ((m * block_size + r : Nat) : Int) =
      (List.range ((List.replicate m block_size ++ [r]).length + 1)).map
        (fun k => (min 100 (k * block_size * 100 / (m * block_size + r)),
          k * block_size, ((m * block_size + r : Nat) : Int))) ∧
    ∀ k ≤ (List.replicate m block_size ++ [r]).length,
      min 100 (k * block_size * 100 / (m * block_size + r)) =
        min 100 (((List.replicate m block_size ++ [r]).take k).sum * 100
          / (m * block_size + r)) := by
  have h0 : 0 < m * block_size + r := Nat.lt_of_lt_of_le hr0 (Nat.le_add_left _ _)
  have hlen : (List.replicate m block_size ++ [r]).length = m + 1 := by
    simp
  constructor
  · exact download_events_eq _ _ _ h0
  · intro k hk
    rw [hlen] at hk
    rcases Nat.lt_or_ge k (m + 1) with hlt | hge
    · have hkm : k ≤ m := Nat.lt_succ_iff.mp hlt
      have htake : (List.replicate m block_size ++ [r]).take k
          = List.replicate k block_size := by
        rw [List.take_append_of_le_length (by simpa using hkm),
          List.take_replicate, Nat.min_eq_left hkm]
      rw [htake, List.sum_replicate, smul_eq_mul]
    · have hkeq : k = m + 1 := Nat.le_antisymm hk hge
      subst hkeq
      have htake : (List.replicate m block_size ++ [r]).take (m + 1)
          = List.replicate m block_size ++ [r] := by
        rw [List.take_of_length_le (by rw [hlen])]
      have hsum : ((List.replicate m block_size ++ [r]).take (m + 1)).sum
          = m * block_size + r := by
        rw [htake]
        simp [List.sum_replicate, smul_eq_mul]
      rw [hsum]
      have hrhs : (m * block_size + r) * 100 / (m * block_size + r) = 100 :=
        Nat.mul_div_cancel_left 100 h0
      have hlhs : 100 ≤ (m + 1) * block_size * 100 / (m * block_size + r) := by
        rw [Nat.le_div_iff_mul_le h0]
        have hle : m * block_size + r ≤ (m + 1) * block_size := by
          rw [Nat.succ_mul]
          exact Nat.add_le_add_left hrbs _
        calc 100 * (m * block_size + r) ≤ 100 * ((m + 1) * block_size) :=
              Nat.mul_le_mul_left _ hle
          _ = (m + 1) * block_size * 100 := Nat.mul_comm _ _
      rw [hrhs, Nat.min_self, Nat.min_eq_left hlhs]

/-! ## Claim C6: progress monotonicity and final value -/

/-- C6: within one download with a known positive total equal to the bytes
actually transferred (blocks each at most the block size), the percent
values of successive callback invocations are monotonically non-decreasing
and the final invocation reports percent 100. -/
theorem download_progress_monotone_final (chunks : List Nat)
    (block_size total : Nat) (h0 : 0 < total) (hsum : chunks.sum = total)
    (hbs : ∀ c ∈ chunks, c ≤ block_size) :
    ((download_events true chunks block_size (total : Int)).map
        (fun e => e.1)).Pairwise (· ≤ ·) ∧
    (download_events true chunks block_size (total : Int)).getLast? =
      some (100, chunks.length * block_size, (total : Int)) := by
  rw [download_events_eq chunks block_size total h0]
  constructor
  · rw [List.map_map]
    apply List.Pairwise.map
      (R := fun a b : Nat => a ≤ b)
      (S := fun a b : Nat => a ≤ b) _ _ (List.pairwise_le_range _)
    intro a b hab
    have h1 : a * block_size * 100 ≤ b * block_size * 100 :=
      Nat.mul_le_mul_right _ (Nat.mul_le_mul_right _ hab)
    exact min_le_min (le_refl 100) (Nat.div_le_div_right h1)
  · rw [List.range_succ, List.map_append, List.map_cons, List.map_nil,
      List.getLast?_concat]
    have htot : total ≤ chunks.length * block_size := by
      have := List.sum_le_card_nsmul chunks block_size hbs
      rwa [smul_eq_mul, hsum] at this
    have h100 : 100 ≤ chunks.length * block_size * 100 / total := by
      rw [Nat.le_div_iff_mul_le h0]
      calc 100 * total ≤ 100 * (chunks.length * block_size) :=
            Nat.mul_le_mul_left _ htot
        _ = chunks.length * block_size * 100 := Nat.mul_comm _ _
    rw [Nat.min_eq_left h100]

/-! ## Claim C7: unknown or zero total -/

/-- C7: when the reported total content length is zero (or unknown, reported
as -1), no progress callback is ever invoked, and a successful transfer
still completes, returning `True` without raising. -/
theorem download_no_total_no_callback (progress_callback : Bool)
    (chunks : List Nat) (block_size : Nat) (total_size : Int) (err : String)
    (h : total_size ≤ 0) :
    download_events progress_callback chunks block_size total_size = [] ∧
    download_file true err = Except.ok true := by
  exact ⟨download_events_no_total _ _ _ _ h, rfl⟩

/-- Witness for C7 at total size 0. -/
theorem download_no_total_no_callback_witness :
    download_events true [8192, 55] 8192 (0 : Int) = [] ∧
    download_file true "" = Except.ok true :=
  download_no_total_no_callback true [8192, 55] 8192 0 "" (by decide)

/-- Witness for C5 (amended) at one full 8192-byte block and a final
1808-byte block. -/
theorem download_percent_matches_true_bytes_witness :
    download_events true (List.replicate 1 8192 ++ [1808]) 8192
        ((1 * 8192 + 1808 : Nat) : Int) =
      (List.range ((List.replicate 1 8192 ++ [1808]).length + 1)).map
        (fun k => (min 100 (k * 8192 * 100 / (1 * 8192 + 1808)),
          k * 8192, ((1 * 8192 + 1808 : Nat) : Int))) ∧
    ∀ k ≤ (List.replicate 1 8192 ++ [1808]).length,
      min 100 (k * 8192 * 100 / (1 * 8192 + 1808)) =
        min 100 (((List.replicate 1 8192 ++ [1808]).take k).sum * 100
          / (1 * 8192 + 1808)) :=
  download_percent_matches_true_bytes 1 1808 8192 (by decide) (by decide)

/-- Witness for C6 at chunks `[8192, 1808]`, block size 8192, total 10000. -/
theorem download_progress_monotone_final_witness :
    ((download_events true [8192, 1808] 8192 ((10000 : Nat) : Int)).map
        (fun e => e.1)).Pairwise (· ≤ ·) ∧
    (download_events true [8192, 1808] 8192 ((10000 : Nat) : Int)).getLast? =
      some (100, [8192, 1808].length * 8192, ((10000 : Nat) : Int)) :=
  download_progress_monotone_final [8192, 1808] 8192 10000 (by decide)
    (by decide) (by decide)

/-! ## Claim C4: install fallback behavior -/

/-- An `Installation failed: ...` message is never the empty string. -/
theorem install_failed_msg_ne_empty (s : String) :
    ("Installation failed: " ++ s) ≠ "" := by
  intro he
  have hl := congrArg String.length he
  rw [String.length_append] at hl
  have h0 : ("Installation failed: " : String).length = 21 := by decide
  have h1 : ("" : String).length = 0 := rfl
  rw [h0, h1] at hl
  exact absurd hl (by omega)

/-- C4: whenever the primary apt process exits non-zero, the dpkg fallback
is attempted before the operation is reported failed; and whenever the
second fallback step (apt fix-broken) is reached and exits non-zero, the
whole install fails with an error carrying non-empty captured text. -/
theorem install_deb_fallback_then_error (env : InstallEnv)
    (hprimary : env.apt_install.returncode ≠ 0) :
    (install_deb env).dpkg_attempted = true ∧
    (env.dpkg_i.returncode = 0 → env.apt_fix_broken.returncode ≠ 0 →
      ∃ msg, (install_deb env).result = Except.error msg ∧ msg ≠ "") := by
  unfold install_deb
  rw [if_neg hprimary]
  by_cases hd : env.dpkg_i.returncode ≠ 0
  · rw [if_pos hd]
    exact ⟨rfl, fun hd0 _ => absurd hd0 hd⟩
  · rw [if_neg hd]
    by_cases hf : env.apt_fix_broken.returncode ≠ 0
    · rw [if_pos hf]
      exact ⟨rfl, fun _ _ =>
        ⟨"Installation failed: " ++ env.apt_fix_broken.stderr, rfl,
          install_failed_msg_ne_empty _⟩⟩
    · rw [if_neg hf]
      exact ⟨rfl, fun _ hfix => absurd hfix hf⟩

/-- Witness for C4: primary apt exits 1, dpkg succeeds, fix-broken exits 1. -/
theorem install_deb_fallback_then_error_witness :
    (install_deb
        { apt_install := { returncode := 1, lines := ["E: broken\n"] }
          dpkg_i := { returncode := 0, stdout := "ok\n", stderr := "" }
          apt_fix_broken :=
            { returncode := 1, stdout := "", stderr := "E: unmet\n" } }).dpkg_attempted
      = true ∧
    (({ apt_install := { returncode := 1, lines := ["E: broken\n"] }
        dpkg_i := { returncode := 0, stdout := "ok\n", stderr := "" }
        apt_fix_broken :=
          { returncode := 1, stdout := "", stderr := "E: unmet\n" } } : InstallEnv).dpkg_i.returncode = 0 →
      ({ apt_install := { returncode := 1, lines := ["E: broken\n"] }
         dpkg_i := { returncode := 0, stdout := "ok\n", stderr := "" }
         apt_fix_broken :=
           { returncode := 1, stdout := "", stderr := "E: unmet\n" } } : InstallEnv).apt_fix_broken.returncode ≠ 0 →
      ∃ msg,
        (install_deb
            { apt_install := { returncode := 1, lines := ["E: broken\n"] }
              dpkg_i := { returncode := 0, stdout := "ok\n", stderr := "" }
              apt_fix_broken :=
                { returncode := 1, stdout := "", stderr := "E: unmet\n" } }).result
          = Except.error msg ∧ msg ≠ "") :=
  install_deb_fallback_then_error _ (by decide)

/-! ## Claim C9: successful install outcome -/

/-- Concrete environment in which the primary tier fails and both fallback
steps succeed while producing captured output. -/
def fallbackEnv : InstallEnv :=
  { apt_install := { returncode := 100, lines := ["E: unmet dependencies\n"] }
    dpkg_i := { returncode := 0, stdout := "Unpacking kdg-kiosk\n", stderr := "" }
    apt_fix_broken := { returncode := 0, stdout := "Done\n", stderr := "" } }

/-- C9 (counterexample): a fallback-tier success returns the fixed log
`"Installation completed successfully"`, not the captured output of the
install processes that produced the success — their output is discarded. -/
theorem install_deb_fallback_log_discarded :
    (install_deb fallbackEnv).result
      = Except.ok (true, "Installation completed successfully") ∧
    "Installation completed successfully" ≠ fallbackEnv.dpkg_i.stdout ∧
    "Installation completed successfully" ≠ fallbackEnv.apt_fix_broken.stdout ∧
    "Installation completed successfully"
      ≠ fallbackEnv.dpkg_i.stdout ++ fallbackEnv.apt_fix_broken.stdout := by
  exact ⟨rfl, by decide, by decide, by decide⟩

/-- C9 (amended): every successful `install_deb` outcome reports
succeeded = true; on the primary tier the log is the captured combined
output of the apt process, but on the fallback tier the log is the fixed
string `"Installation completed successfully"` and the fallback processes'
captured output is discarded. -/
theorem install_deb_success_log (env : InstallEnv) (b : Bool) (log : String)
    (h : (install_deb env).result = Except.ok (b, log)) :
    b = true ∧
    (env.apt_install.returncode = 0 →
      log = String.join env.apt_install.lines) ∧
    (env.apt_install.returncode ≠ 0 →
      log = "Installation completed successfully") := by
  unfold install_deb at h
  by_cases hp : env.apt_install.returncode = 0
  · rw [if_pos hp] at h
    simp only [Except.ok.injEq, Prod.mk.injEq] at h
    exact ⟨h.1.symm, fun _ => h.2.symm, fun hc => absurd hp hc⟩
  · rw [if_neg hp] at h
    by_cases hd : env.dpkg_i.returncode ≠ 0
    · rw [if_pos hd] at h
      exact Except.noConfusion h
    · rw [if_neg hd] at h
      by_cases hf : env.apt_fix_broken.returncode ≠ 0
      · rw [if_pos hf] at h
        exact Except.noConfusion h
      · rw [if_neg hf] at h
        simp only [Except.ok.injEq, Prod.mk.injEq] at h
        exact ⟨h.1.symm, fun hc => absurd hc hp, fun _ => h.2.symm⟩

/-- Witness for C9 (amended) at the concrete fallback environment. -/
theorem install_deb_success_log_witness :
    (true : Bool) = true ∧
    (fallbackEnv.apt_install.returncode = 0 →
      "Installation completed successfully" = String.join fallbackEnv.apt_install.lines) ∧
    (fallbackEnv.apt_install.returncode ≠ 0 →
      ("Installation completed successfully" : String)
        = "Installation completed successfully") :=
  install_deb_success_log fallbackEnv true "Installation completed successfully" rfl

/-! ## Claim C3: work-directory cleanup -/

/-- Release response used by the concrete failing-install run: one release
`v1.0.0` with a conforming `.deb` asset. -/
def installFailHttp : String → HttpResult :=
  fun _ => HttpResult.ok
    { tag_name := "v1.0.0"
      assets := [{ name := "kdg-kiosk_1.0.0_amd64.deb", browser_download_url := "u" }]
      name := "r1"
      body := "" }

/-- Local environment in which compatibility and privilege checks pass, the
download succeeds, and the install stage raises (apt and dpkg both exit
non-zero). -/
def installFailEnv : Env :=
  { compat_errors := []
    is_root := true
    download_ok := true
    download_err := ""
    install_env :=
      { apt_install := { returncode := 1, lines := ["E: apt failed\n"] }
        dpkg_i := { returncode := 1, stdout := "", stderr := "dpkg: error processing\n" }
        apt_fix_broken := { returncode := 0, stdout := "", stderr := "" } } }

/-- C3 (counterexample): in a run that creates the work directory and whose
install stage raises, `shutil.rmtree` is invoked twice — once by the except
handler and once by the finally block — not exactly once. -/
theorem run_cleanup_twice_on_install_error :
    (CLIInstaller.run none installFailHttp installFailEnv).workdir_created = true ∧
    (CLIInstaller.run none installFailHttp installFailEnv).rmtree_calls = 2 ∧
    (2 : Nat) ≠ 1 := by
  exact ⟨rfl, rfl, by decide⟩

/-- C3 (amended): whenever the work directory was created, the removal
operation is invoked at least once before the run reports its outcome — but
at most twice rather than exactly once: on the path where the install stage
raises, the except handler and the finally block each invoke it (the second
call is a no-op thanks to ignore_errors=True). -/
theorem run_cleanup_at_least_once (version? : Option String)
    (http : String → HttpResult) (env : Env)
    (h : (CLIInstaller.run version? http env).workdir_created = true) :
    1 ≤ (CLIInstaller.run version? http env).rmtree_calls ∧
    (CLIInstaller.run version? http env).rmtree_calls ≤ 2 := by
  revert h
  unfold CLIInstaller.run
  repeat' split
  all_goals intro h
  all_goals
    first
      | exact absurd h Bool.false_ne_true
      | exact ⟨Nat.le_refl 1, Nat.le_succ 1⟩
      | exact ⟨Nat.le_succ 1, Nat.le_refl 2⟩

/-- Witness for C3 (amended) at the concrete failing-install run. -/
theorem run_cleanup_at_least_once_witness :
    1 ≤ (CLIInstaller.run none installFailHttp installFailEnv).rmtree_calls ∧
    (CLIInstaller.run none installFailHttp installFailEnv).rmtree_calls ≤ 2 :=
  run_cleanup_at_least_once none installFailHttp installFailEnv rfl

/-! ## Claim C8: 404 halts at resolution, no work directory -/

/-- C8: for every run whose latest-release request yields HTTP 404 (with
compatibility and privilege checks passing), the pipeline halts at the
release-resolution stage with the distinct "No releases found" message,
reports failure, and never creates the temporary work directory. -/
theorem run_404_no_workdir (version? : Option String)
    (http : String → HttpResult) (env : Env)
    (hc : env.compat_errors = []) (hr : env.is_root = true)
    (h404 : http (latest_release_url GITHUB_REPO) = HttpResult.httpError 404) :
    CLIInstaller.run version? http env =
      { success := false, workdir_created := false, rmtree_calls := 0,
        halted_at := Stage.resolve,
        failure_message :=
          some "No releases found. Please create a release on GitHub first." } := by
  have hres : get_latest_release_info http GITHUB_REPO =
      Except.error "No releases found. Please create a release on GitHub first." := by
    unfold get_latest_release_info
    rw [h404]
    rfl
  unfold CLIInstaller.run
  rw [if_neg (by simp [hc]), if_neg (by simp [hr]), hres]

/-- Environment for the C8 witness: checks pass, no release published. -/
def noReleaseEnv : Env :=
  { compat_errors := []
    is_root := true
    download_ok := true
    download_err := ""
    install_env :=
      { apt_install := { returncode := 0, lines := [] }
        dpkg_i := { returncode := 0, stdout := "", stderr := "" }
        apt_fix_broken := { returncode := 0, stdout := "", stderr := "" } } }

/-- Witness for C8 at a server that answers 404 everywhere. -/
theorem run_404_no_workdir_witness :
    CLIInstaller.run none (fun _ => HttpResult.httpError 404) noReleaseEnv =
      { success := false, workdir_created := false, rmtree_calls := 0,
        halted_at := Stage.resolve,
        failure_message :=
          some "No releases found. Please create a release on GitHub first." } :=
  run_404_no_workdir none (fun _ => HttpResult.httpError 404) noReleaseEnv rfl rfl rfl

/-! ## Claim C10: requested version still resolves the latest release -/

/-- A successful run implies the latest-release endpoint returned a parsed
release whose asset list contains an asset ending in `".deb"`. -/
theorem run_success_implies_deb_asset (version? : Option String)
    (http : String → HttpResult) (env : Env)
    (h : (CLIInstaller.run version? http env).success = true) :
    ∃ d, http (latest_release_url GITHUB_REPO) = HttpResult.ok d ∧
      ∃ a ∈ d.assets, endswith a.name ".deb" = true := by
  unfold CLIInstaller.run at h
  split at h
  · exact absurd h Bool.false_ne_true
  split at h
  · exact absurd h Bool.false_ne_true
  split at h
  · exact absurd h Bool.false_ne_true
  rename_i info heq
  split at h
  · exact absurd h Bool.false_ne_true
  rename_i p hfind
  have hmem : ∃ a ∈ info.assets, endswith a.name ".deb" = true := by
    unfold find_deb_asset at hfind
    simp only [find_deb_asset_test_eq] at hfind
    cases hf : info.assets.find? (fun a => endswith a.name ".deb") with
    | none => rw [hf] at hfind; exact Except.noConfusion hfind
    | some a =>
        have hpa := List.find?_some hf
        exact ⟨a, List.mem_of_find?_eq_some hf, hpa⟩
  unfold get_latest_release_info at heq
  cases hresp : http (latest_release_url GITHUB_REPO) with
  | ok d =>
      rw [hresp] at heq
      injection heq with hinj
      refine ⟨d, rfl, ?_⟩
      rw [← hinj] at hmem
      exact hmem
  | httpError code =>
      rw [hresp] at heq
      have heq2 : (if code = 404 then
            (Except.error "No releases found. Please create a release on GitHub first."
              : Except String ReleaseInfo)
          else
            Except.error ("Failed to fetch release info: HTTP Error " ++ toString code))
          = Except.ok info := heq
      by_cases h404 : code = 404
      · rw [if_pos h404] at heq2
        exact Except.noConfusion heq2
      · rw [if_neg h404] at heq2
        exact Except.noConfusion heq2
  | otherError e =>
      rw [hresp] at heq
      have heq2 : (Except.error ("Failed to connect to GitHub: " ++ e)
          : Except String ReleaseInfo) = Except.ok info := heq
      exact Except.noConfusion heq2

/-- C10: a run with an explicitly requested version still consults only the
fixed latest-release endpoint — two servers that agree on that single URL
produce identical runs, whatever they answer elsewhere — and a successful
run implies the latest release itself contained a `.deb` asset, so a
non-latest version can only be installed out of the latest release's own
assets. -/
theorem run_requested_version_uses_latest (v : String)
    (http http2 : String → HttpResult) (env : Env)
    (hagree : http (latest_release_url GITHUB_REPO)
      = http2 (latest_release_url GITHUB_REPO)) :
    CLIInstaller.run (some v) http env = CLIInstaller.run (some v) http2 env ∧
    ((CLIInstaller.run (some v) http env).success = true →
      ∃ d, http (latest_release_url GITHUB_REPO) = HttpResult.ok d ∧
        ∃ a ∈ d.assets, endswith a.name ".deb" = true) := by
  constructor
  · have hinfo : get_latest_release_info http GITHUB_REPO
        = get_latest_release_info http2 GITHUB_REPO := by
      unfold get_latest_release_info
      rw [hagree]
    unfold CLIInstaller.run
    rw [hinfo]
  · exact run_success_implies_deb_asset (some v) http env

/-- Witness for C10: an explicitly requested non-latest version `"0.9.0"`
against a server whose latest release only carries the `1.0.0` asset. -/
theorem run_requested_version_uses_latest_witness :
    CLIInstaller.run (some "0.9.0") installFailHttp noReleaseEnv
      = CLIInstaller.run (some "0.9.0") installFailHttp noReleaseEnv ∧
    ((CLIInstaller.run (some "0.9.0") installFailHttp noReleaseEnv).success = true →
      ∃ d, installFailHttp (latest_release_url GITHUB_REPO) = HttpResult.ok d ∧
        ∃ a ∈ d.assets, endswith a.name ".deb" = true) :=
  run_requested_version_uses_latest "0.9.0" installFailHttp installFailHttp
    noReleaseEnv rfl

/-- Witness for C2 (amended) at the tag `"v2.3.1"`. -/
theorem resolved_version_strips_leading_vs_witness :
    (∃ n, (ReleaseData.mk "v2.3.1" [] "r" "").tag_name.data
        = List.replicate n 'v' ++ (ReleaseInfo.mk "2.3.1" [] "r" "").version.data) ∧
    (∀ c, (ReleaseInfo.mk "2.3.1" [] "r" "").version.data.head? = some c → c ≠ 'v') ∧
    ((ReleaseData.mk "v2.3.1" [] "r" "").tag_name.data.head? ≠ some 'v' →
      (ReleaseInfo.mk "2.3.1" [] "r" "").version
        = (ReleaseData.mk "v2.3.1" [] "r" "").tag_name) :=
  resolved_version_strips_leading_vs
    (fun _ => HttpResult.ok (ReleaseData.mk "v2.3.1" [] "r" ""))
    GITHUB_REPO (ReleaseData.mk "v2.3.1" [] "r" "")
    (ReleaseInfo.mk "2.3.1" [] "r" "") rfl rfl
